import Mathlib

/-!
Shallow embedding of the topologic-vibe session/tool layer.

Source files embedded:
  - `src/session.py` : `TopologicSession` (the Object Store) and its methods.
  - `src/common.py`  : `assign_name` (the Naming Helper).
  - `src/tools.py`   : the tool catalogue (shape creation, inspection, clearing).

Modelling decisions:
  - A Python `dict` (string keys) is an insertion-ordered association list;
    `d[k] = v` updates the value in place when the key exists and appends
    otherwise, which matches CPython dict semantics.
  - The geometry kernel (topologicpy) is opaque to this repository: each kernel
    constructor is embedded as a record of the arguments the repository passes
    to it, plus the metadata dictionary that `Topology.SetDictionary` attaches.
    Scalar coordinates are embedded as rationals; the repository performs no
    arithmetic on them.
  - `uuid.uuid4()` is a draw of a random token; every tool that may synthesize
    a name receives that draw as an explicit `token : String` argument.
  - Tools are state-passing functions on the session, returning the new session
    and the tool result string.  They are total Lean functions: no code path of
    the embedded tools raises.
-/

namespace TopologicVibe

/-- One entry of a topologicpy `Dictionary`; `Dictionary.ByKeysValues keys values`
zips the two lists. -/
abbrev TopoDict := List (String × String)

/-- `Dictionary.ByKeysValues(keys, values)` from topologicpy, as used by
`assign_name`. -/
def Dictionary.ByKeysValues (keys : List String) (values : List String) : TopoDict :=
  List.zip keys values

/-- The payload of a kernel vertex: its coordinates and its attached metadata
dictionary. -/
structure PyVertex where
  coords : List ℚ
  dict : TopoDict
deriving DecidableEq

/-- An opaque geometry-kernel object, embedded as the constructor the repository
called together with the arguments it passed and the attached metadata
dictionary.  The constructor tells which Python class the handle has
(`Vertex`, `Edge`, `Wire`, `Face`, `Cell`). -/
inductive TopoObject where
  | vertex (v : PyVertex)
  | edge (startV endV : PyVertex) (dict : TopoDict)
  | wire (vertices : List PyVertex) (closed : Bool) (dict : TopoDict)
  | face (vertices : List PyVertex) (dict : TopoDict)
  | faceRectangle (origin : Option PyVertex) (length width : ℚ) (dict : TopoDict)
  | faceCircle (origin : Option PyVertex) (radius : ℚ) (dict : TopoDict)
  | cellCube (origin : Option PyVertex) (size : ℚ) (dict : TopoDict)
  | cellPrism (width length height : ℚ) (dict : TopoDict)
  | cellCylinder (radius height : ℚ) (dict : TopoDict)
deriving DecidableEq

namespace TopoObject

/-- `type(obj).__name__` for a kernel object handle. -/
def typeName : TopoObject → String
  | vertex _ => "Vertex"
  | edge _ _ _ => "Edge"
  | wire _ _ _ => "Wire"
  | face _ _ => "Face"
  | faceRectangle _ _ _ _ => "Face"
  | faceCircle _ _ _ => "Face"
  | cellCube _ _ _ => "Cell"
  | cellPrism _ _ _ _ => "Cell"
  | cellCylinder _ _ _ => "Cell"

/-- The metadata dictionary currently attached to a kernel object. -/
def getDictionary : TopoObject → TopoDict
  | vertex v => v.dict
  | edge _ _ d => d
  | wire _ _ d => d
  | face _ d => d
  | faceRectangle _ _ _ d => d
  | faceCircle _ _ d => d
  | cellCube _ _ d => d
  | cellPrism _ _ _ d => d
  | cellCylinder _ _ d => d

/-- `Topology.SetDictionary(obj, config)`: returns the object with the given
metadata dictionary attached. -/
def setDictionary : TopoObject → TopoDict → TopoObject
  | vertex v, d => vertex { v with dict := d }
  | edge a b _, d => edge a b d
  | wire vs c _, d => wire vs c d
  | face vs _, d => face vs d
  | faceRectangle o l w _, d => faceRectangle o l w d
  | faceCircle o r _, d => faceCircle o r d
  | cellCube o s _, d => cellCube o s d
  | cellPrism w l h _, d => cellPrism w l h d
  | cellCylinder r h _, d => cellCylinder r h d

/-- Extract the vertex payload of a handle.  Every call the embedded tools make
passes an actual vertex handle; the default is never reached from the tools. -/
def toPyVertex : TopoObject → PyVertex
  | vertex v => v
  | _ => ⟨[], []⟩

end TopoObject

/-- `Topology.SetDictionary(obj, config)` (from `common.py`\x27s import). -/
def Topology.SetDictionary (obj : TopoObject) (config : TopoDict) : TopoObject :=
  obj.setDictionary config

/-- `assign_name` from `src/common.py`: attaches the single-key dictionary
`{"name": name}` to the object and returns it. -/
def assign_name (obj : TopoObject) (name : String) : TopoObject :=
  let keys := ["name"]
  let values := [name]
  let config := Dictionary.ByKeysValues keys values
  Topology.SetDictionary obj config

/-- `Vertex.ByCoordinates(*point)`: topologicpy defaults missing coordinates
to 0, always producing an x, y, z triple. -/
def Vertex.ByCoordinates (point : List ℚ) : TopoObject :=
  .vertex ⟨[point.getD 0 0, point.getD 1 0, point.getD 2 0], []⟩

/-- `Vertex.Coordinates(obj)`: the coordinate triple of a vertex handle. -/
def Vertex.Coordinates (obj : TopoObject) : List ℚ :=
  obj.toPyVertex.coords

/-- `Edge.ByVertices(a, b)`. -/
def Edge.ByVertices (a b : TopoObject) : TopoObject :=
  .edge a.toPyVertex b.toPyVertex []

/-- `Wire.ByVertices(vertices, close=is_closed)`. -/
def Wire.ByVertices (vertices : List TopoObject) (close : Bool) : TopoObject :=
  .wire (vertices.map TopoObject.toPyVertex) close []

/-- `Face.ByVertices(vertices)`. -/
def Face.ByVertices (vertices : List TopoObject) : TopoObject :=
  .face (vertices.map TopoObject.toPyVertex) []

/-- `Face.Rectangle(origin=origin, length=length, width=width)`. -/
def Face.Rectangle (origin : Option TopoObject) (length width : ℚ) : TopoObject :=
  .faceRectangle (origin.map TopoObject.toPyVertex) length width []

/-- `Face.Circle(origin=origin, radius=radius)`. -/
def Face.Circle (origin : Option TopoObject) (radius : ℚ) : TopoObject :=
  .faceCircle (origin.map TopoObject.toPyVertex) radius []

/-- `Cell.Cube(origin=origin, size=size)`. -/
def Cell.Cube (origin : Option TopoObject) (size : ℚ) : TopoObject :=
  .cellCube (origin.map TopoObject.toPyVertex) size []

/-- `Cell.Prism(width=width, length=length, height=height)`. -/
def Cell.Prism (width length height : ℚ) : TopoObject :=
  .cellPrism width length height []

/-- `Cell.Cylinder(radius=radius, height=height)`. -/
def Cell.Cylinder (radius height : ℚ) : TopoObject :=
  .cellCylinder radius height []

/-- CPython dict update `d[k] = v` on an insertion-ordered association list:
replace in place when the key is present, append otherwise. -/
def dictInsert {α : Type} (k : String) (v : α) : List (String × α) → List (String × α)
  | [] => [(k, v)]
  | (k', v') :: rest =>
      if k' = k then (k, v) :: rest else (k', v') :: dictInsert k v rest

/-- CPython `d.get(k, None)`. -/
def dictGet {α : Type} (k : String) : List (String × α) → Option α
  | [] => none
  | (k', v') :: rest => if k' = k then some v' else dictGet k rest

/-- One chat turn `{"role": role, "content": content}`. -/
structure ChatTurn where
  role : String
  content : String
deriving DecidableEq

/-- `TopologicSession` from `src/session.py`: the Object Store.  `items` maps
names to kernel objects; `messages` is the chat history. -/
structure TopologicSession where
  items : List (String × TopoObject)
  messages : List ChatTurn
deriving DecidableEq

namespace TopologicSession

/-- `TopologicSession.__init__`: empty items, empty messages. -/
def init : TopologicSession :=
  { items := [], messages := [] }

/-- `TopologicSession.add`: `self.items[name] = obj` then return the
confirmation string. -/
def add (s : TopologicSession) (name : String) (obj : TopoObject) :
    TopologicSession × String :=
  ({ s with items := dictInsert name obj s.items },
    "Object \x27" ++ name ++ "\x27 saved.")

/-- `TopologicSession.get_all_names`: `list(self.items.keys())`. -/
def get_all_names (s : TopologicSession) : List String :=
  s.items.map Prod.fst

/-- `TopologicSession.get`: `self.items.get(name, None)`. -/
def get (s : TopologicSession) (name : String) : Option TopoObject :=
  dictGet name s.items

/-- `TopologicSession.add_message`: append `{"role": role, "content": content}`
and return the entry. -/
def add_message (s : TopologicSession) (role content : String) :
    TopologicSession × ChatTurn :=
  let entry : ChatTurn := { role := role, content := content }
  ({ s with messages := s.messages ++ [entry] }, entry)

/-- `TopologicSession.get_messages`: `list(self.messages)` — a copy of the
current history as a value.  (The aliasing content of the copy is modelled
separately in the `Alias` namespace.) -/
def get_messages (s : TopologicSession) : List ChatTurn :=
  s.messages

/-- `TopologicSession.clear_messages`: rebind `self.messages` to a fresh empty
list and return `True`. -/
def clear_messages (s : TopologicSession) : TopologicSession × Bool :=
  ({ s with messages := [] }, true)

end TopologicSession

/-- The name a tool uses: the caller-supplied one when present, otherwise the
synthesized `f"<shape-kind> {uuid.uuid4()}"` with `token` the uuid draw. -/
def chosenName (kind : String) (token : String) : Option String → String
  | none => kind ++ " " ++ token
  | some n => n

/-- `create_cylinder` from `src/tools.py`. -/
def create_cylinder (token : String) (radius height : ℚ) (name : Option String)
    (s : TopologicSession) : TopologicSession × String :=
  let name := chosenName "cylinder" token name
  let cylinder := Cell.Cylinder radius height
  let cylinder := assign_name cylinder name
  let s := (s.add name cylinder).1
  (s, "A cylinder with name " ++ name ++ " has been created and registered")

/-- `create_prism` from `src/tools.py`. -/
def create_prism (token : String) (width length height : ℚ) (name : Option String)
    (s : TopologicSession) : TopologicSession × String :=
  let name := chosenName "prism" token name
  let prism := Cell.Prism width length height
  let prism := assign_name prism name
  let s := (s.add name prism).1
  (s, "A prism with name " ++ name ++ " has been created and registered")

/-- `create_circle` from `src/tools.py`. -/
def create_circle (token : String) (radius : ℚ) (origin : Option (List ℚ))
    (name : Option String) (s : TopologicSession) : TopologicSession × String :=
  let originV := origin.map Vertex.ByCoordinates
  let name := chosenName "circle" token name
  let circle := Face.Circle originV radius
  let circle := assign_name circle name
  let s := (s.add name circle).1
  (s, "A circle with name " ++ name ++ " has been created and registered")

/-- `create_rectangle` from `src/tools.py`. -/
def create_rectangle (token : String) (length width : ℚ) (origin : Option (List ℚ))
    (name : Option String) (s : TopologicSession) : TopologicSession × String :=
  let originV := origin.map Vertex.ByCoordinates
  let name := chosenName "rectangle" token name
  let rectangle := Face.Rectangle originV length width
  let rectangle := assign_name rectangle name
  let s := (s.add name rectangle).1
  (s, "A rectangle with name " ++ name ++ " has been created and registered")

/-- `create_face` from `src/tools.py`.  Returns the error string without
touching the session when fewer than three points are given. -/
def create_face (token : String) (points : List (List ℚ)) (name : Option String)
    (s : TopologicSession) : TopologicSession × String :=
  if points.length < 3 then
    (s, "Error: At least three points are required to create a face.")
  else
    let name := chosenName "face" token name
    let vertices := points.map Vertex.ByCoordinates
    let face := Face.ByVertices vertices
    let face := assign_name face name
    let s := (s.add name face).1
    (s, "A face with name " ++ name ++ " has been created and registered")

/-- `create_wire` from `src/tools.py`.  Returns the error string without
touching the session when fewer than two points are given. -/
def create_wire (token : String) (points : List (List ℚ)) (is_closed : Bool)
    (name : Option String) (s : TopologicSession) : TopologicSession × String :=
  if points.length < 2 then
    (s, "Error: At least two points are required to create a wire.")
  else
    let name := chosenName "wire" token name
    let vertices := points.map Vertex.ByCoordinates
    let wire := Wire.ByVertices vertices is_closed
    let wire := assign_name wire name
    let s := (s.add name wire).1
    (s, "A wire with name " ++ name ++ " has been created and registered")

/-- `create_vertex` from `src/tools.py` (the Python default for `position` is
`[0.0, 0.0, 0.0]`; the caller passes it explicitly here). -/
def create_vertex (token : String) (position : List ℚ) (name : Option String)
    (s : TopologicSession) : TopologicSession × String :=
  let name := chosenName "vertex" token name
  let vertex := Vertex.ByCoordinates position
  let vertex := assign_name vertex name
  let s := (s.add name vertex).1
  (s, "A vertex with name " ++ name ++ " has been created and registered")

/-- `create_edge` from `src/tools.py`. -/
def create_edge (token : String) (startP endP : List ℚ) (name : Option String)
    (s : TopologicSession) : TopologicSession × String :=
  let name := chosenName "edge" token name
  let start_vertex := Vertex.ByCoordinates startP
  let end_vertex := Vertex.ByCoordinates endP
  let edge := Edge.ByVertices start_vertex end_vertex
  let edge := assign_name edge name
  let s := (s.add name edge).1
  (s, "An edge with name " ++ name ++ " has been created and registered")

/-- `create_cube` from `src/tools.py`. -/
def create_cube (token : String) (size : ℚ) (origin : Option (List ℚ))
    (name : Option String) (s : TopologicSession) : TopologicSession × String :=
  let originV := origin.map Vertex.ByCoordinates
  let name := chosenName "cube" token name
  let cube := Cell.Cube originV size
  let cube := assign_name cube name
  let s := (s.add name cube).1
  (s, "A cube with name " ++ name ++ " has been created and registered")

/-- Python `str` of a float whose value is an integer-valued rational (the form
the tools produce); models the f-string rendering of a coordinate list. -/
def pyFloatRepr (q : ℚ) : String :=
  if q.den = 1 then toString q.num ++ ".0" else toString q

/-- Python `str` of a list of floats, as interpolated by
`f"... coordinates {coords}."`. -/
def pyListRepr (qs : List ℚ) : String :=
  "[" ++ String.intercalate ", " (qs.map pyFloatRepr) ++ "]"

/-- `get_object_info` from `src/tools.py`. -/
def get_object_info (name : String) (s : TopologicSession) :
    TopologicSession × String :=
  match s.get name with
  | none => (s, "No object found with the name \x27" ++ name ++ "\x27.")
  | some obj =>
    let obj_type := obj.typeName
    if obj_type = "Vertex" then
      let coords := Vertex.Coordinates obj
      (s, "Object \x27" ++ name ++ "\x27 is a Vertex located at coordinates "
        ++ pyListRepr coords ++ ".")
    else
      (s, "Object \x27" ++ name ++ "\x27 is of type \x27" ++ obj_type ++ "\x27.")

/-- `list_session_items` from `src/tools.py`. -/
def list_session_items (s : TopologicSession) : TopologicSession × String :=
  let names := s.get_all_names
  if names.isEmpty then
    (s, "The session is empty.")
  else
    let item_list := String.intercalate "\n" (names.map (fun name => "- " ++ name))
    (s, "Current session items:\n" ++ item_list)

/-- `clear_session` from `src/tools.py`: `session.items = {}`. -/
def clear_session (s : TopologicSession) : TopologicSession × String :=
  ({ s with items := [] }, "The session has been deleted")

namespace Alias

/-- Heap-level model of the session\x27s `messages` attribute, to express Python
list aliasing: `cells` are the allocated list objects (addressed by index) and
`msgsAddr` is the address `self.messages` currently refers to. -/
structure MsgState where
  cells : List (List ChatTurn)
  msgsAddr : ℕ
deriving DecidableEq

/-- Dereference an address: the contents of the list object stored there. -/
def read (st : MsgState) (a : ℕ) : List ChatTurn :=
  st.cells.getD a []

/-- `get_messages`: `list(self.messages)` allocates a fresh list object holding
a copy of the current history and returns its address. -/
def get_messages (st : MsgState) : MsgState × ℕ :=
  ({ st with cells := st.cells ++ [read st st.msgsAddr] }, st.cells.length)

/-- `add_message`: in-place append on the list object `self.messages` refers
to. -/
def add_message (st : MsgState) (role content : String) : MsgState × ChatTurn :=
  let entry : ChatTurn := { role := role, content := content }
  ({ st with cells := st.cells.set st.msgsAddr (read st st.msgsAddr ++ [entry]) },
    entry)

/-- `clear_messages`: `self.messages = []` rebinds the attribute to a freshly
allocated empty list. -/
def clear_messages (st : MsgState) : MsgState × Bool :=
  ({ cells := st.cells ++ [[]], msgsAddr := st.cells.length }, true)

end Alias

/- General lemmas about the embedded dictionary operations. -/

theorem dictGet_dictInsert_self {α : Type} (k : String) (v : α)
    (l : List (String × α)) : dictGet k (dictInsert k v l) = some v := by
  induction l with
  | nil => simp [dictInsert, dictGet]
  | cons hd tl ih =>
    obtain ⟨k', v'⟩ := hd
    by_cases h : k' = k
    · simp [dictInsert, dictGet, h]
    · simp [dictInsert, dictGet, h, ih]

theorem keys_dictInsert {α : Type} (k : String) (v : α) (l : List (String × α)) :
    (dictInsert k v l).map Prod.fst =
      if k ∈ l.map Prod.fst then l.map Prod.fst else l.map Prod.fst ++ [k] := by
  induction l with
  | nil => simp [dictInsert]
  | cons hd tl ih =>
    obtain ⟨k', v'⟩ := hd
    by_cases h : k' = k
    · subst h
      simp [dictInsert]
    · have hne : ¬(k = k') := fun he => h he.symm
      simp only [dictInsert, if_neg h, List.map_cons, List.mem_cons, hne,
        false_or, ih]
      by_cases hm : k ∈ tl.map Prod.fst
      · simp [hm]
      · simp [hm]

theorem nodup_keys_dictInsert {α : Type} (k : String) (v : α)
    (l : List (String × α)) (hl : (l.map Prod.fst).Nodup) :
    ((dictInsert k v l).map Prod.fst).Nodup := by
  rw [keys_dictInsert]
  by_cases hm : k ∈ l.map Prod.fst
  · simpa [hm] using hl
  · simp [hm, List.nodup_append, hl]

theorem dictGet_eq_none_of_not_mem {α : Type} (k : String)
    (l : List (String × α)) (hk : k ∉ l.map Prod.fst) : dictGet k l = none := by
  induction l with
  | nil => rfl
  | cons hd tl ih =>
    obtain ⟨k', v'⟩ := hd
    simp only [List.map_cons, List.mem_cons] at hk
    push_neg at hk
    have : k' ≠ k := fun he => hk.1 he.symm
    simp [dictGet, this, ih hk.2]

theorem length_dictInsert {α : Type} (k : String) (v : α)
    (l : List (String × α)) :
    (dictInsert k v l).length =
      if k ∈ l.map Prod.fst then l.length else l.length + 1 := by
  have h := congrArg List.length (keys_dictInsert k v l)
  simp only [List.length_map] at h
  by_cases hm : k ∈ l.map Prod.fst
  · simpa [hm] using h
  · simpa [hm] using h

theorem string_append_left_cancel (a : String) {t1 t2 : String}
    (h : a ++ t1 = a ++ t2) : t1 = t2 := by
  have h2 := congrArg String.data h
  simp [String.data_append] at h2
  exact String.ext h2

/-- Claim C1: a tool invocation whose structural precondition is violated
(`create_face` with fewer than three points, `create_wire` with fewer than two
points) returns the descriptive error string — for the face case exactly
"Error: At least three points are required to create a face." — and the whole
session, in particular the Object Store\x27s items, is returned unchanged.
The embedded tools are total Lean functions, so no exception is raised. -/
theorem claim_C1_precondition_errors (s : TopologicSession) (tokF tokW : String)
    (nmF nmW : Option String) (c : Bool) (ptsF ptsW : List (List ℚ))
    (hF : ptsF.length < 3) (hW : ptsW.length < 2) :
    create_face tokF ptsF nmF s
      = (s, "Error: At least three points are required to create a face.") ∧
    create_wire tokW ptsW c nmW s
      = (s, "Error: At least two points are required to create a wire.") := by
  constructor
  · simp [create_face, hF]
  · simp [create_wire, hW]

/-- Witness for C1 at the spec\x27s end-to-end scenario 3 inputs. -/
theorem claim_C1_precondition_errors_witness :
    create_face "t0" [[0, 0], [1, 0]] none TopologicSession.init
      = (TopologicSession.init,
          "Error: At least three points are required to create a face.") ∧
    create_wire "t0" [[0, 0]] true none TopologicSession.init
      = (TopologicSession.init,
          "Error: At least two points are required to create a wire.") :=
  claim_C1_precondition_errors TopologicSession.init "t0" "t0" none none true
    [[0, 0], [1, 0]] [[0, 0]] (by decide) (by decide)

/-- Claim C2: for every session state, name and object, `add` followed by
`get` on that name returns exactly the stored object; `add` always succeeds
with the confirmation string, and when the name is already present (here:
right after a first `add` of the same name) it silently overwrites the
earlier entry, returning the same confirmation and no error. -/
theorem claim_C2_add_get (s : TopologicSession) (n : String) (o o2 : TopoObject) :
    ((s.add n o).1.get n = some o) ∧
    ((s.add n o).2 = "Object \x27" ++ n ++ "\x27 saved.") ∧
    (((s.add n o).1.add n o2).1.get n = some o2) ∧
    (((s.add n o).1.add n o2).2 = "Object \x27" ++ n ++ "\x27 saved.") := by
  refine ⟨?_, rfl, ?_, rfl⟩
  · simp [TopologicSession.add, TopologicSession.get, dictGet_dictInsert_self]
  · simp [TopologicSession.add, TopologicSession.get, dictGet_dictInsert_self]

/-- Claim C3: `clear_session` empties `items` and leaves `messages` exactly
unchanged; `clear_messages` empties `messages` and leaves `items` exactly
unchanged. -/
theorem claim_C3_clear_frame (s : TopologicSession) :
    (clear_session s).1.items = [] ∧
    (clear_session s).1.messages = s.messages ∧
    (s.clear_messages).1.messages = [] ∧
    (s.clear_messages).1.items = s.items :=
  ⟨rfl, rfl, rfl, rfl⟩

/-- Claim C8: the store offers a messages-clearing operation
(`TopologicSession.clear_messages`) and an items-clearing operation (the
`clear_session` tool, which performs `session.items = {}`); each resets its
target to empty and is idempotent on the session state. -/
theorem claim_C8_clear_idempotent (s : TopologicSession) :
    (clear_session (clear_session s).1).1 = (clear_session s).1 ∧
    (clear_session s).1.items = [] ∧
    ((s.clear_messages).1.clear_messages).1 = (s.clear_messages).1 ∧
    (s.clear_messages).1.messages = [] :=
  ⟨rfl, rfl, rfl, rfl⟩

theorem cylinder_prefix_ne_face_prefix (t1 t2 : String) :
    "cylinder " ++ t1 ≠ "face " ++ t2 := by
  intro h
  have h2 := congrArg String.data h
  simp only [String.data_append] at h2
  have h3 := congrArg (List.take 5) h2
  rw [List.take_append_of_le_length (by decide),
    List.take_append_of_le_length (by decide)] at h3
  exact absurd h3 (by decide)

/-- Claim C4: when the `name` argument is omitted, the synthesized name is the
shape kind followed by a space and the random token (the `uuid.uuid4()` draw),
the object is registered in the store under exactly that name, and two such
calls never produce the same name — across kinds unconditionally, and within a
kind whenever the two random draws differ (the spec\x27s probabilistic uuid4
guarantee, here an explicit hypothesis). -/
theorem claim_C4_synthesized_names (s1 s2 : TopologicSession)
    (r h : ℚ) (pts : List (List ℚ)) (t1 t2 : String)
    (hne : t1 ≠ t2) (hpts : ¬pts.length < 3) :
    chosenName "cylinder" t1 none = "cylinder " ++ t1 ∧
    chosenName "face" t1 none = "face " ++ t1 ∧
    ((create_cylinder t1 r h none s1).1.get ("cylinder " ++ t1)).isSome = true ∧
    ((create_face t1 pts none s2).1.get ("face " ++ t1)).isSome = true ∧
    chosenName "cylinder" t1 none ≠ chosenName "cylinder" t2 none ∧
    chosenName "face" t1 none ≠ chosenName "face" t2 none ∧
    chosenName "cylinder" t1 none ≠ chosenName "face" t2 none := by
  refine ⟨rfl, rfl, ?_, ?_, ?_, ?_, ?_⟩
  · show ((create_cylinder t1 r h none s1).1.get
      (chosenName "cylinder" t1 none)).isSome = true
    simp [create_cylinder, TopologicSession.add, TopologicSession.get,
      dictGet_dictInsert_self]
  · show ((create_face t1 pts none s2).1.get
      (chosenName "face" t1 none)).isSome = true
    simp [create_face, hpts, TopologicSession.add, TopologicSession.get,
      dictGet_dictInsert_self]
  · show ("cylinder " ++ t1) ≠ ("cylinder " ++ t2)
    exact fun he => hne (string_append_left_cancel _ he)
  · show ("face " ++ t1) ≠ ("face " ++ t2)
    exact fun he => hne (string_append_left_cancel _ he)
  · show ("cylinder " ++ t1) ≠ ("face " ++ t2)
    exact cylinder_prefix_ne_face_prefix t1 t2

/-- Witness for C4 with two distinct concrete tokens. -/
theorem claim_C4_synthesized_names_witness :
    chosenName "cylinder" "a" none = "cylinder " ++ "a" ∧
    chosenName "face" "a" none = "face " ++ "a" ∧
    ((create_cylinder "a" 1 2 none TopologicSession.init).1.get
      ("cylinder " ++ "a")).isSome = true ∧
    ((create_face "a" [[0, 0], [1, 0], [1, 1]] none TopologicSession.init).1.get
      ("face " ++ "a")).isSome = true ∧
    chosenName "cylinder" "a" none ≠ chosenName "cylinder" "b" none ∧
    chosenName "face" "a" none ≠ chosenName "face" "b" none ∧
    chosenName "cylinder" "a" none ≠ chosenName "face" "b" none :=
  claim_C4_synthesized_names TopologicSession.init TopologicSession.init 1 2
    [[0, 0], [1, 0], [1, 1]] "a" "b" (by decide) (by decide)

/-- Claim C5: `get_messages` returns a snapshot copy, not a live reference.
In the heap-level model of Python list aliasing, the address returned by
`get_messages` holds the history as of the call, and its contents are
unchanged by a later `add_message` (in-place append on the session\x27s own
list) or `clear_messages` (rebinding to a fresh list) — assuming the
session\x27s `messages` attribute refers to an allocated cell. -/
theorem claim_C5_get_messages_snapshot (st : Alias.MsgState) (r c : String)
    (hv : st.msgsAddr < st.cells.length) :
    Alias.read (Alias.get_messages st).1 (Alias.get_messages st).2
      = Alias.read st st.msgsAddr ∧
    Alias.read (Alias.add_message (Alias.get_messages st).1 r c).1
        (Alias.get_messages st).2
      = Alias.read st st.msgsAddr ∧
    Alias.read (Alias.clear_messages (Alias.get_messages st).1).1
        (Alias.get_messages st).2
      = Alias.read st st.msgsAddr := by
  have hne : st.msgsAddr ≠ st.cells.length := Nat.ne_of_lt hv
  refine ⟨?_, ?_, ?_⟩
  · simp [Alias.get_messages, Alias.read, List.getD_eq_getElem?_getD]
  · simp [Alias.get_messages, Alias.add_message, Alias.read,
      List.getD_eq_getElem?_getD, List.getElem?_set_ne hne]
  · have hlt : st.cells.length < (st.cells ++ [Alias.read st st.msgsAddr]).length := by
      simp
    simp only [Alias.get_messages, Alias.clear_messages, Alias.read,
      List.getD_eq_getElem?_getD, List.append_assoc, List.singleton_append]
    rw [List.getElem?_append_right (Nat.le_refl _)]
    simp

/-- Witness for C5 at a concrete state with one allocated message list. -/
theorem claim_C5_get_messages_snapshot_witness :
    Alias.read (Alias.get_messages ⟨[[⟨"user", "hi"⟩]], 0⟩).1
        (Alias.get_messages ⟨[[⟨"user", "hi"⟩]], 0⟩).2
      = Alias.read ⟨[[⟨"user", "hi"⟩]], 0⟩ 0 ∧
    Alias.read (Alias.add_message
        (Alias.get_messages ⟨[[⟨"user", "hi"⟩]], 0⟩).1 "assistant" "ok").1
        (Alias.get_messages ⟨[[⟨"user", "hi"⟩]], 0⟩).2
      = Alias.read ⟨[[⟨"user", "hi"⟩]], 0⟩ 0 ∧
    Alias.read (Alias.clear_messages
        (Alias.get_messages ⟨[[⟨"user", "hi"⟩]], 0⟩).1).1
        (Alias.get_messages ⟨[[⟨"user", "hi"⟩]], 0⟩).2
      = Alias.read ⟨[[⟨"user", "hi"⟩]], 0⟩ 0 :=
  claim_C5_get_messages_snapshot ⟨[[⟨"user", "hi"⟩]], 0⟩ "assistant" "ok"
    (by decide)

/-- Claim C9: `get_all_names` lists stored names in first-insertion order:
an `add` of a fresh name appends it at the end, an `add` of a present name
replaces the object (as `get` shows) while leaving the name list exactly
unchanged, and no name is ever duplicated. -/
theorem claim_C9_insertion_order (s : TopologicSession) (n : String)
    (o : TopoObject) :
    ((s.add n o).1.get_all_names =
      if n ∈ s.get_all_names then s.get_all_names
      else s.get_all_names ++ [n]) ∧
    ((s.add n o).1.get n = some o) ∧
    (s.get_all_names.Nodup → (s.add n o).1.get_all_names.Nodup) := by
  refine ⟨?_, ?_, ?_⟩
  · simpa [TopologicSession.add, TopologicSession.get_all_names] using
      keys_dictInsert n o s.items
  · simp [TopologicSession.add, TopologicSession.get, dictGet_dictInsert_self]
  · intro hnd
    simpa [TopologicSession.add, TopologicSession.get_all_names] using
      nodup_keys_dictInsert n o s.items
        (by simpa [TopologicSession.get_all_names] using hnd)

/-- Witness for C9: adding a second, fresh name to a one-item store. -/
theorem claim_C9_insertion_order_witness :
    (((TopologicSession.init.add "x" (Cell.Prism 1 2 3)).1.add "y"
        (Cell.Cylinder 1 2)).1.get_all_names =
      if "y" ∈ (TopologicSession.init.add "x" (Cell.Prism 1 2 3)).1.get_all_names
      then (TopologicSession.init.add "x" (Cell.Prism 1 2 3)).1.get_all_names
      else (TopologicSession.init.add "x" (Cell.Prism 1 2 3)).1.get_all_names
        ++ ["y"]) ∧
    (((TopologicSession.init.add "x" (Cell.Prism 1 2 3)).1.add "y"
        (Cell.Cylinder 1 2)).1.get "y" = some (Cell.Cylinder 1 2)) ∧
    ((TopologicSession.init.add "x" (Cell.Prism 1 2 3)).1.add "y"
        (Cell.Cylinder 1 2)).1.get_all_names.Nodup := by
  have h := claim_C9_insertion_order
    (TopologicSession.init.add "x" (Cell.Prism 1 2 3)).1 "y" (Cell.Cylinder 1 2)
  exact ⟨h.1, h.2.1, h.2.2 (by decide)⟩

/-- Claim C6: `list_session_items` on an empty store returns exactly
"The session is empty."; on a non-empty store it returns the header line
followed by one line "- name" per stored name, newline-separated — in
particular, after adding one object named "c1" the result is the string whose
second line is "- c1". -/
theorem claim_C6_list_items (s : TopologicSession) :
    (s.items = [] → list_session_items s = (s, "The session is empty.")) ∧
    (s.items ≠ [] → (list_session_items s).2 =
      "Current session items:\n" ++
        String.intercalate "\n" (s.get_all_names.map (fun n => "- " ++ n))) ∧
    ((list_session_items ((TopologicSession.init.add "c1" (Cell.Cube none 1)).1)).2
      = "Current session items:\n- c1") := by
  refine ⟨?_, ?_, rfl⟩
  · intro h
    simp [list_session_items, TopologicSession.get_all_names, h]
  · intro h
    match he : s.items with
    | [] => exact absurd he h
    | (k, v) :: rest =>
      simp [list_session_items, TopologicSession.get_all_names, he]

/-- Witness for C6: the empty store and a one-item store. -/
theorem claim_C6_list_items_witness :
    list_session_items TopologicSession.init
      = (TopologicSession.init, "The session is empty.") ∧
    (list_session_items ((TopologicSession.init.add "c1" (Cell.Cube none 1)).1)).2
      = "Current session items:\n" ++
        String.intercalate "\n"
          (((TopologicSession.init.add "c1" (Cell.Cube none 1)).1.get_all_names).map
            (fun n => "- " ++ n)) :=
  ⟨(claim_C6_list_items TopologicSession.init).1 rfl,
    (claim_C6_list_items ((TopologicSession.init.add "c1" (Cell.Cube none 1)).1)).2.1
      (by decide)⟩

/-- Claim C7: lookups of an absent name never raise: `get` returns the `None`
sentinel for any name not in the store, `get_object_info` then returns the
plain-text sentinel message; for a present object it reports the object\x27s
kind, with coordinates special-cased for `Vertex` objects.  All embedded
operations are total Lean functions, so no exception is raised. -/
theorem claim_C7_lookup_sentinels (s : TopologicSession) (n : String) :
    (n ∉ s.get_all_names → s.get n = none) ∧
    (s.get n = none → get_object_info n s
      = (s, "No object found with the name \x27" ++ n ++ "\x27.")) ∧
    (∀ v : PyVertex, s.get n = some (.vertex v) → (get_object_info n s).2
      = "Object \x27" ++ n ++ "\x27 is a Vertex located at coordinates "
        ++ pyListRepr v.coords ++ ".") ∧
    (∀ o : TopoObject, s.get n = some o → o.typeName ≠ "Vertex" →
      (get_object_info n s).2
        = "Object \x27" ++ n ++ "\x27 is of type \x27" ++ o.typeName ++ "\x27.") := by
  refine ⟨?_, ?_, ?_, ?_⟩
  · intro hn
    exact dictGet_eq_none_of_not_mem n s.items
      (by simpa [TopologicSession.get_all_names] using hn)
  · intro h
    simp [get_object_info, h]
  · intro v hv
    simp [get_object_info, hv, TopoObject.typeName, Vertex.Coordinates,
      TopoObject.toPyVertex]
  · intro o ho hne
    simp [get_object_info, ho, hne]

/-- Witness for C7: a store holding a vertex and a cylinder, probed with an
absent name, the vertex\x27s name and the cylinder\x27s name. -/
theorem claim_C7_lookup_sentinels_witness :
    (((TopologicSession.init.add "v1" (Vertex.ByCoordinates [1, 2, 3])).1.add "cy"
        (assign_name (Cell.Cylinder 1 2) "cy")).1.get "zzz" = none) ∧
    (get_object_info "zzz"
        ((TopologicSession.init.add "v1" (Vertex.ByCoordinates [1, 2, 3])).1.add "cy"
          (assign_name (Cell.Cylinder 1 2) "cy")).1
      = (((TopologicSession.init.add "v1" (Vertex.ByCoordinates [1, 2, 3])).1.add "cy"
          (assign_name (Cell.Cylinder 1 2) "cy")).1,
         "No object found with the name \x27zzz\x27.")) ∧
    ((get_object_info "v1"
        ((TopologicSession.init.add "v1" (Vertex.ByCoordinates [1, 2, 3])).1.add "cy"
          (assign_name (Cell.Cylinder 1 2) "cy")).1).2
      = "Object \x27v1\x27 is a Vertex located at coordinates "
        ++ pyListRepr (⟨[1, 2, 3], []⟩ : PyVertex).coords ++ ".") ∧
    ((get_object_info "cy"
        ((TopologicSession.init.add "v1" (Vertex.ByCoordinates [1, 2, 3])).1.add "cy"
          (assign_name (Cell.Cylinder 1 2) "cy")).1).2
      = "Object \x27cy\x27 is of type \x27"
        ++ (assign_name (Cell.Cylinder 1 2) "cy").typeName ++ "\x27.") := by
  have h := claim_C7_lookup_sentinels
    ((TopologicSession.init.add "v1" (Vertex.ByCoordinates [1, 2, 3])).1.add "cy"
      (assign_name (Cell.Cylinder 1 2) "cy")).1
  exact ⟨(h "zzz").1 (by decide),
    (h "zzz").2.1 ((h "zzz").1 (by decide)),
    (h "v1").2.2.1 ⟨[1, 2, 3], []⟩ (by decide),
    (h "cy").2.2.2 (assign_name (Cell.Cylinder 1 2) "cy") (by decide) (by decide)⟩

theorem getDictionary_setDictionary (obj : TopoObject) (d : TopoDict) :
    (obj.setDictionary d).getDictionary = d := by
  cases obj <;> rfl

/-- Claim C10: a successful shape-creation call uses one name consistently —
the name (given or synthesized) is attached as the object\x27s "name" metadata
by `assign_name`, is the key under which the object is registered, and is the
name appearing in the returned confirmation string; the store changes by
exactly one entry (added when the name is fresh, overwritten when it is
present).  Shown for the cited tools `create_cylinder` and `create_face`. -/
theorem claim_C10_name_consistency (s : TopologicSession) (tok : String)
    (r h : ℚ) (nmC nmF : Option String) (pts : List (List ℚ))
    (hpts : ¬pts.length < 3) :
    (create_cylinder tok r h nmC s
      = ((s.add (chosenName "cylinder" tok nmC)
            (assign_name (Cell.Cylinder r h) (chosenName "cylinder" tok nmC))).1,
         "A cylinder with name " ++ chosenName "cylinder" tok nmC
           ++ " has been created and registered")) ∧
    ((assign_name (Cell.Cylinder r h) (chosenName "cylinder" tok nmC)).getDictionary
      = [("name", chosenName "cylinder" tok nmC)]) ∧
    ((create_cylinder tok r h nmC s).1.items.length
      = if chosenName "cylinder" tok nmC ∈ s.get_all_names
        then s.items.length else s.items.length + 1) ∧
    (create_face tok pts nmF s
      = ((s.add (chosenName "face" tok nmF)
            (assign_name (Face.ByVertices (pts.map Vertex.ByCoordinates))
              (chosenName "face" tok nmF))).1,
         "A face with name " ++ chosenName "face" tok nmF
           ++ " has been created and registered")) ∧
    ((assign_name (Face.ByVertices (pts.map Vertex.ByCoordinates))
        (chosenName "face" tok nmF)).getDictionary
      = [("name", chosenName "face" tok nmF)]) := by
  refine ⟨rfl, ?_, ?_, ?_, ?_⟩
  · simp [assign_name, Topology.SetDictionary, Dictionary.ByKeysValues,
      getDictionary_setDictionary]
  · simpa [create_cylinder, TopologicSession.add, TopologicSession.get_all_names]
      using length_dictInsert (chosenName "cylinder" tok nmC)
        (assign_name (Cell.Cylinder r h) (chosenName "cylinder" tok nmC)) s.items
  · simp [create_face, hpts]
  · simp [assign_name, Topology.SetDictionary, Dictionary.ByKeysValues,
      getDictionary_setDictionary]

/-- Witness for C10: a synthesized cylinder name and an explicit face name on
the empty store. -/
theorem claim_C10_name_consistency_witness :
    (create_cylinder "t1" 1 2 none TopologicSession.init
      = ((TopologicSession.init.add (chosenName "cylinder" "t1" none)
            (assign_name (Cell.Cylinder 1 2) (chosenName "cylinder" "t1" none))).1,
         "A cylinder with name " ++ chosenName "cylinder" "t1" none
           ++ " has been created and registered")) ∧
    ((assign_name (Cell.Cylinder 1 2) (chosenName "cylinder" "t1" none)).getDictionary
      = [("name", chosenName "cylinder" "t1" none)]) ∧
    ((create_cylinder "t1" 1 2 none TopologicSession.init).1.items.length
      = if chosenName "cylinder" "t1" none ∈ TopologicSession.init.get_all_names
        then TopologicSession.init.items.length
        else TopologicSession.init.items.length + 1) ∧
    (create_face "t1" [[0, 0], [1, 0], [1, 1]] (some "f1") TopologicSession.init
      = ((TopologicSession.init.add (chosenName "face" "t1" (some "f1"))
            (assign_name
              (Face.ByVertices ([[0, 0], [1, 0], [1, 1]].map Vertex.ByCoordinates))
              (chosenName "face" "t1" (some "f1")))).1,
         "A face with name " ++ chosenName "face" "t1" (some "f1")
           ++ " has been created and registered")) ∧
    ((assign_name
        (Face.ByVertices ([[0, 0], [1, 0], [1, 1]].map Vertex.ByCoordinates))
        (chosenName "face" "t1" (some "f1"))).getDictionary
      = [("name", chosenName "face" "t1" (some "f1"))]) :=
  claim_C10_name_consistency TopologicSession.init "t1" 1 2 none (some "f1")
    [[0, 0], [1, 0], [1, 1]] (by decide)

end TopologicVibe
